import Mathlib

/-!
Verification of the i18n module of a static personal landing page.

The JavaScript source is embedded shallowly:

* A JSON translation bundle is a `TransValue` (a string leaf or an object
  of key/value fields).  JavaScript truthiness of such a value is `truthy`;
  converting a value to a DOM string (as `el.textContent = value` does) is
  `jsToString` (a plain object renders as "[object Object]").
* `localStorage.getItem('lang')` is modelled as an `Option String`
  (`none` = no entry).
* The browser locale list `navigator.languages ?? [navigator.language]` is a
  `List String` argument.
* The network is an oracle `String → Option TransValue`: `network lang` is
  `some data` when fetching `i18n/<lang>.json` succeeds with decoded JSON
  `data`, and `none` on any transport, HTTP-status or decode failure.
* The module-level mutable `translationCache` object is threaded explicitly
  as an association list `Cache`; property assignment conses a new binding
  and lookup takes the newest one.
* The DOM state touched by the module is a `Dom` record: the list of
  elements carrying data-i18n / data-i18n-aria-label markers, the document
  title, the content of the description meta tag (`none` when the page has
  no such tag), the language-picker buttons and the lang attribute of
  `documentElement`.
* Effectful functions return, besides their result, the list of language
  codes fetched from the network (`fetched`) and the list of codes for
  which a console warning was emitted (`warns`), so that "network access"
  and "logs a warning" are observable in the model.
-/

/-- A decoded JSON translation value: a string leaf or an object node.
(The bundles of this module contain only strings and nested objects.) -/
inductive TransValue where
  | str : String → TransValue
  | obj : List (String × TransValue) → TransValue
deriving Repr

/-- JavaScript truthiness of a `TransValue`: the empty string is falsy,
every other string and every object is truthy. -/
def truthy : TransValue → Bool
  | .str s => s ≠ ""
  | .obj _ => true

/-- Truthiness of a possibly-absent value (`undefined`/`null` are falsy). -/
def truthyOpt : Option TransValue → Bool
  | none => false
  | some v => truthy v

/-- DOM string conversion, as performed by `el.textContent = value` and
`setAttribute(..., value)`: strings unchanged, plain objects render as
"[object Object]". -/
def jsToString : TransValue → String
  | .str s => s
  | .obj _ => "[object Object]"

/-- Helper for `jsSplit`: splits a character list at a separator. -/
def splitChAux (sep : Char) : List Char → List Char → List (List Char)
  | [], acc => [acc.reverse]
  | c :: cs, acc =>
    if c = sep then acc.reverse :: splitChAux sep cs []
    else splitChAux sep cs (c :: acc)

/-- JavaScript `s.split(sep)` for a single-character separator, as used by
the source in `keyPath.split('.')` and `browserLang.split('-')`.  On the
empty string it returns `[""]`, like JavaScript. -/
def jsSplit (sep : Char) (s : String) : List String :=
  (splitChAux sep s.data []).map (fun l => String.mk l)

/-- Helper for `strStartsWith`: `charsStart p s` holds when `s` begins
with `p`. -/
def charsStart : List Char → List Char → Bool
  | [], _ => true
  | _ :: _, [] => false
  | a :: as, b :: bs => a = b && charsStart as bs

/-- JavaScript `s.startsWith(p)`. -/
def strStartsWith (s p : String) : Bool := charsStart p.data s.data

-- Source constants (i18n module, lines 126-128).

def I18N_STORAGE_KEY : String := "lang"

def DEFAULT_LANG : String := "en"

def SUPPORTED_LANGS : List String := ["en", "pt-BR", "de"]

/-- The in-memory translation cache: language code ↦ decoded bundle. -/
abbrev Cache := List (String × TransValue)

/-- Reading `translationCache[lang]` (`none` = no own property). -/
def cacheGet : Cache → String → Option TransValue
  | [], _ => none
  | (k, v) :: rest, lang => if k = lang then some v else cacheGet rest lang

/-- The assignment `translationCache[lang] = data`. -/
def cacheSet (c : Cache) (lang : String) (data : TransValue) : Cache :=
  (lang, data) :: c

/-- Source: `detectBrowserLang()`.  Walks the browser locale list; for each
candidate first tries an exact match against `SUPPORTED_LANGS`, then a
prefix match (the part before "-" equals a supported code, or a supported
code starts with that part followed by "-").  Returns the first hit, or
`none` when no candidate matches. -/
def detectBrowserLang : List String → Option String
  | [] => none
  | browserLang :: rest =>
    if SUPPORTED_LANGS.contains browserLang then some browserLang
    else
      let pre := (jsSplit '-' browserLang).headD ""
      match SUPPORTED_LANGS.find? (fun supported =>
          supported == pre || strStartsWith supported (pre ++ "-")) with
      | some m => some m
      | none => detectBrowserLang rest

/-- Source: `resolveLanguage()`.  Priority: truthy stored preference that is
supported > browser detection (truthy result) > `DEFAULT_LANG`. -/
def resolveLanguage (stored : Option String) (langs : List String) : String :=
  match stored with
  | some s =>
    if s ≠ "" && SUPPORTED_LANGS.contains s then s
    else
      match detectBrowserLang langs with
      | some d => if d ≠ "" then d else DEFAULT_LANG
      | none => DEFAULT_LANG
  | none =>
    match detectBrowserLang langs with
    | some d => if d ≠ "" then d else DEFAULT_LANG
    | none => DEFAULT_LANG

/-- Result of `loadTranslation`: the returned bundle, the cache afterwards,
the codes fetched over the network, and the codes warned about. -/
structure LoadResult where
  bundle : TransValue
  cache : Cache
  fetched : List String
  warns : List String
deriving Repr

/-- Source: `loadTranslation(lang)`.  Returns a truthy cached bundle without
network access; otherwise fetches, caches and returns the data on success;
on failure warns and falls back to `DEFAULT_LANG` (recursing once), and
when the default itself was requested and failed returns the empty object
without caching it. -/
def loadTranslation (network : String → Option TransValue) (cache : Cache)
    (lang : String) : LoadResult :=
  match cacheGet cache lang with
  | some v =>
    if truthy v then ⟨v, cache, [], []⟩
    else
      match network lang with
      | some data => ⟨data, cacheSet cache lang data, [lang], []⟩
      | none =>
        if _h : lang = DEFAULT_LANG then ⟨.obj [], cache, [lang], [lang]⟩
        else
          let d := loadTranslation network cache DEFAULT_LANG
          ⟨d.bundle, d.cache, lang :: d.fetched, lang :: d.warns⟩
  | none =>
    match network lang with
    | some data => ⟨data, cacheSet cache lang data, [lang], []⟩
    | none =>
      if _h : lang = DEFAULT_LANG then ⟨.obj [], cache, [lang], [lang]⟩
      else
        let d := loadTranslation network cache DEFAULT_LANG
        ⟨d.bundle, d.cache, lang :: d.fetched, lang :: d.warns⟩
termination_by (if lang = DEFAULT_LANG then 0 else 1)
decreasing_by
  · simp_all
  · simp_all

/-- One step of the reduce in `getNestedValue`: `current?.[key]`.  An absent
current stays absent, indexing a string leaf yields no value, indexing an
object looks the key up among its fields. -/
def jsIndex : Option TransValue → String → Option TransValue
  | none, _ => none
  | some (.str _), _ => none
  | some (.obj fields), key => (fields.find? (fun f => f.1 = key)).map (·.2)

/-- Source: `getNestedValue(obj, keyPath)`.  Splits the key path on "." and
indexes step by step, short-circuiting to no value once a step misses. -/
def getNestedValue (obj : TransValue) (keyPath : String) : Option TransValue :=
  (jsSplit '.' keyPath).foldl jsIndex (some obj)

/-- A DOM element as seen by the i18n module: its data-i18n and
data-i18n-aria-label attributes (`none` = attribute absent), its text
content and its aria-label attribute. -/
structure Elem where
  dataI18n : Option String
  dataAria : Option String
  text : String
  ariaLabel : Option String
deriving Repr, DecidableEq

/-- A language-picker button (class lang-option): its data-lang attribute,
whether its class list contains "active", and its aria-current attribute. -/
structure PickerBtn where
  dataLang : Option String
  active : Bool
  ariaCurrent : String
deriving Repr, DecidableEq

/-- The DOM state the i18n module reads and writes. -/
structure Dom where
  elems : List Elem
  title : String
  metaDesc : Option String
  buttons : List PickerBtn
  htmlLang : String
deriving Repr, DecidableEq

/-- The first forEach body of `applyTranslations`: on an element carrying
data-i18n, resolve the key; a non-null value becomes the text content,
otherwise the element is untouched. -/
def applyTextElem (translations : TransValue) (e : Elem) : Elem :=
  match e.dataI18n with
  | none => e
  | some key =>
    match getNestedValue translations key with
    | some value => { e with text := jsToString value }
    | none => e

/-- The second forEach body of `applyTranslations`: on an element carrying
data-i18n-aria-label, resolve the key; a non-null value is set as the
aria-label attribute, otherwise the element is untouched. -/
def applyAriaElem (translations : TransValue) (e : Elem) : Elem :=
  match e.dataAria with
  | none => e
  | some key =>
    match getNestedValue translations key with
    | some value => { e with ariaLabel := some (jsToString value) }
    | none => e

/-- Source: `applyTranslations(translations)`.  Applies the text pass and
the aria-label pass to every element, then updates `document.title` when
meta.title resolves to a truthy value and the description meta tag (when
present) when meta.description resolves to a truthy value. -/
def applyTranslations (translations : TransValue) (d : Dom) : Dom :=
  let elems1 := d.elems.map (applyTextElem translations)
  let elems2 := elems1.map (applyAriaElem translations)
  let d1 := { d with elems := elems2 }
  let d2 :=
    match getNestedValue translations "meta.title" with
    | some v => if truthy v then { d1 with title := jsToString v } else d1
    | none => d1
  match getNestedValue translations "meta.description" with
  | some v =>
    if truthy v then { d2 with metaDesc := d2.metaDesc.map (fun _ => jsToString v) }
    else d2
  | none => d2

/-- The forEach body of `updatePicker`: toggle the active class and set
aria-current by strict equality of the data-lang attribute with the active
language (`null === activeLang` is false). -/
def updateBtn (activeLang : String) (b : PickerBtn) : PickerBtn :=
  { b with
    active := b.dataLang = some activeLang
    ariaCurrent := if b.dataLang = some activeLang then "true" else "false" }

/-- Source: `updatePicker(activeLang)`.  Updates every lang-option button
and sets the lang attribute of `documentElement`. -/
def updatePicker (activeLang : String) (d : Dom) : Dom :=
  let htmlLang := if activeLang = "pt-BR" then "pt-BR" else activeLang
  { d with buttons := d.buttons.map (updateBtn activeLang), htmlLang := htmlLang }

/-- The browser-side state `switchLanguage` touches: the stored language
preference (localStorage entry under `I18N_STORAGE_KEY`), the translation
cache, and the DOM. -/
structure State where
  storage : Option String
  cache : Cache
  dom : Dom

/-- Result of `switchLanguage`: the state afterwards plus the observable
fetch and warning traces of the bundle load it performed. -/
structure SwitchResult where
  state : State
  fetched : List String
  warns : List String

/-- Source: `switchLanguage(lang)`.  Returns immediately on an unsupported
code; otherwise persists the preference, loads the bundle, applies it and
updates the picker. -/
def switchLanguage (network : String → Option TransValue) (lang : String)
    (s : State) : SwitchResult :=
  if SUPPORTED_LANGS.contains lang then
    let r := loadTranslation network s.cache lang
    let d1 := applyTranslations r.bundle s.dom
    let d2 := updatePicker lang d1
    ⟨⟨some lang, r.cache, d2⟩, r.fetched, r.warns⟩
  else ⟨s, [], []⟩

/-- Spec-side matcher for one browser locale, following the spec words:
exact match against the supported set first, else the part before "-"
matching a supported code exactly or as the part before "-" of a supported
code. -/
def specCandidateMatch (locale : String) : Option String :=
  if SUPPORTED_LANGS.contains locale then some locale
  else
    let pre := (jsSplit '-' locale).headD ""
    SUPPORTED_LANGS.find? (fun supported =>
      supported == pre || strStartsWith supported (pre ++ "-"))

/-- Spec-side scan of the ordered browser locale list: first candidate with
a match wins. -/
def specScanLocales : List String → Option String
  | [] => none
  | l :: rest =>
    match specCandidateMatch l with
    | some m => some m
    | none => specScanLocales rest

/-- Spec-side resolver, written from the spec precedence: (1) a stored
preference that is in the supported set; (2) the scan of the browser locale
list; (3) the fixed default code. -/
def resolveLanguageSpec (stored : Option String) (langs : List String) : String :=
  match stored with
  | some s =>
    if SUPPORTED_LANGS.contains s then s
    else (specScanLocales langs).getD DEFAULT_LANG
  | none => (specScanLocales langs).getD DEFAULT_LANG

lemma detectBrowserLang_mem {langs : List String} {d : String}
    (h : detectBrowserLang langs = some d) : d ∈ SUPPORTED_LANGS := by
  induction langs with
  | nil => simp [detectBrowserLang] at h
  | cons l rest ih =>
    simp only [detectBrowserLang] at h
    by_cases hc : SUPPORTED_LANGS.contains l = true
    · rw [if_pos hc] at h
      cases h
      exact List.elem_iff.mp hc
    · rw [if_neg hc] at h
      cases hf : SUPPORTED_LANGS.find? (fun supported =>
          supported == (jsSplit '-' l).headD "" ||
            strStartsWith supported ((jsSplit '-' l).headD "" ++ "-")) with
      | some m =>
        rw [hf] at h
        cases h
        exact List.mem_of_find?_eq_some hf
      | none =>
        rw [hf] at h
        exact ih h

lemma mem_supported_ne_empty {d : String} (h : d ∈ SUPPORTED_LANGS) : d ≠ "" := by
  intro he
  subst he
  exact absurd h (by decide)

/-- C1: for every stored preference and every browser locale list,
`resolveLanguage` returns a member of the supported set; it is a total
function (never fails) and cannot return a code outside that set. -/
theorem resolveLanguage_always_supported (stored : Option String)
    (langs : List String) : resolveLanguage stored langs ∈ SUPPORTED_LANGS := by
  have hdef : DEFAULT_LANG ∈ SUPPORTED_LANGS := by decide
  cases stored with
  | none =>
    simp only [resolveLanguage]
    cases hd : detectBrowserLang langs with
    | none => exact hdef
    | some d =>
      show (if d ≠ "" then d else DEFAULT_LANG) ∈ SUPPORTED_LANGS
      by_cases hde : d ≠ ""
      · rw [if_pos hde]
        exact detectBrowserLang_mem hd
      · rw [if_neg hde]
        exact hdef
  | some s =>
    simp only [resolveLanguage]
    by_cases hs : (decide (s ≠ "") && SUPPORTED_LANGS.contains s) = true
    · rw [if_pos hs]
      exact List.elem_iff.mp ((Bool.and_eq_true _ _).mp hs).2
    · rw [if_neg hs]
      cases hd : detectBrowserLang langs with
      | none => exact hdef
      | some d =>
        show (if d ≠ "" then d else DEFAULT_LANG) ∈ SUPPORTED_LANGS
        by_cases hde : d ≠ ""
        · rw [if_pos hde]
          exact detectBrowserLang_mem hd
        · rw [if_neg hde]
          exact hdef

lemma detectBrowserLang_eq_scan (langs : List String) :
    detectBrowserLang langs = specScanLocales langs := by
  induction langs with
  | nil => rfl
  | cons l rest ih =>
    simp only [detectBrowserLang, specScanLocales, specCandidateMatch]
    split
    · rfl
    · split <;> rename_i heq <;> simp [heq, ih]

/-- C2: `resolveLanguage` follows the spec precedence exactly (stored
supported preference first, then the ordered browser-locale scan with
exact-then-prefix matching per candidate, then the default code), and on
the locale list ["fr-FR", "de-AT"] with no stored preference it returns
"de" by prefix match on the second candidate. -/
theorem resolveLanguage_precedence :
    (∀ stored langs, resolveLanguage stored langs = resolveLanguageSpec stored langs)
    ∧ resolveLanguage none ["fr-FR", "de-AT"] = "de" := by
  constructor
  · intro stored langs
    have hmatch : (match detectBrowserLang langs with
        | some d => if d ≠ "" then d else DEFAULT_LANG
        | none => DEFAULT_LANG) = (specScanLocales langs).getD DEFAULT_LANG := by
      rw [← detectBrowserLang_eq_scan]
      cases hdd : detectBrowserLang langs with
      | none => rfl
      | some d =>
        have hne : d ≠ "" := mem_supported_ne_empty (detectBrowserLang_mem hdd)
        simp [hne]
    cases stored with
    | none => simpa only [resolveLanguage, resolveLanguageSpec] using hmatch
    | some s =>
      simp only [resolveLanguage, resolveLanguageSpec]
      by_cases hc : SUPPORTED_LANGS.contains s = true
      · have hs : s ≠ "" := mem_supported_ne_empty (List.elem_iff.mp hc)
        have hcond : (decide (s ≠ "") && SUPPORTED_LANGS.contains s) = true := by
          simp [hs]
          exact List.elem_iff.mp hc
        rw [if_pos hcond, if_pos hc]
      · have hnm : s ∉ SUPPORTED_LANGS := fun hmem => hc (List.elem_iff.mpr hmem)
        have hcond : ¬((decide (s ≠ "") && SUPPORTED_LANGS.contains s) = true) := by
          simp [hnm]
        rw [if_neg hcond, if_neg hc]
        exact hmatch
  · decide

lemma cacheGet_set_self (c : Cache) (lang : String) (v : TransValue) :
    cacheGet (cacheSet c lang v) lang = some v := by
  simp [cacheGet, cacheSet]

lemma cacheGet_set_ne (c : Cache) (k lang : String) (v : TransValue)
    (h : lang ≠ k) : cacheGet (cacheSet c k v) lang = cacheGet c lang := by
  show (if k = lang then some v else cacheGet c lang) = cacheGet c lang
  rw [if_neg (Ne.symm h)]

lemma truthyOpt_eq_true_iff (o : Option TransValue) :
    truthyOpt o = true ↔ ∃ v, o = some v ∧ truthy v = true := by
  cases o <;> simp [truthyOpt]

lemma loadTranslation_hit (network : String → Option TransValue) (cache : Cache)
    (lang : String) (v : TransValue) (hc : cacheGet cache lang = some v)
    (ht : truthy v = true) :
    loadTranslation network cache lang = ⟨v, cache, [], []⟩ := by
  unfold loadTranslation
  simp only [hc]
  rw [if_pos ht]

lemma loadTranslation_fetch_ok (network : String → Option TransValue)
    (cache : Cache) (lang : String) (data : TransValue)
    (hc : truthyOpt (cacheGet cache lang) = false)
    (hn : network lang = some data) :
    loadTranslation network cache lang =
      ⟨data, cacheSet cache lang data, [lang], []⟩ := by
  unfold loadTranslation
  cases hcc : cacheGet cache lang with
  | none => simp only [hcc, hn]
  | some v =>
    have htv : truthy v = false := by
      rw [hcc] at hc
      exact hc
    simp only [hcc, hn, htv, Bool.false_eq_true, if_false]

lemma loadTranslation_fail_default (network : String → Option TransValue)
    (cache : Cache) (hc : truthyOpt (cacheGet cache DEFAULT_LANG) = false)
    (hn : network DEFAULT_LANG = none) :
    loadTranslation network cache DEFAULT_LANG =
      ⟨.obj [], cache, [DEFAULT_LANG], [DEFAULT_LANG]⟩ := by
  unfold loadTranslation
  cases hcc : cacheGet cache DEFAULT_LANG with
  | none => simp [hcc, hn]
  | some v =>
    have htv : truthy v = false := by
      rw [hcc] at hc
      exact hc
    simp [hcc, hn, htv]

lemma loadTranslation_fail_fallback (network : String → Option TransValue)
    (cache : Cache) (lang : String)
    (hc : truthyOpt (cacheGet cache lang) = false)
    (hn : network lang = none) (hne : lang ≠ DEFAULT_LANG) :
    loadTranslation network cache lang =
      ⟨(loadTranslation network cache DEFAULT_LANG).bundle,
       (loadTranslation network cache DEFAULT_LANG).cache,
       lang :: (loadTranslation network cache DEFAULT_LANG).fetched,
       lang :: (loadTranslation network cache DEFAULT_LANG).warns⟩ := by
  conv_lhs => rw [loadTranslation]
  cases hcc : cacheGet cache lang with
  | none => simp only [hcc, hn, dif_neg hne]
  | some v =>
    have htv : truthy v = false := by
      rw [hcc] at hc
      exact hc
    simp only [hcc, hn, htv, Bool.false_eq_true, if_false, dif_neg hne]

lemma loadTranslation_default_fetched_le_one (network : String → Option TransValue)
    (cache : Cache) :
    (loadTranslation network cache DEFAULT_LANG).fetched.length ≤ 1 := by
  by_cases ht : truthyOpt (cacheGet cache DEFAULT_LANG) = true
  · obtain ⟨v, hcc, htv⟩ := (truthyOpt_eq_true_iff _).mp ht
    rw [loadTranslation_hit network cache DEFAULT_LANG v hcc htv]
    simp
  · have ht' : truthyOpt (cacheGet cache DEFAULT_LANG) = false := by
      revert ht
      cases truthyOpt (cacheGet cache DEFAULT_LANG) <;> simp
    cases hn : network DEFAULT_LANG with
    | some data =>
      rw [loadTranslation_fetch_ok network cache DEFAULT_LANG data ht' hn]
      simp
    | none =>
      rw [loadTranslation_fail_default network cache ht' hn]
      simp

lemma loadTranslation_default_cacheGet_ne (network : String → Option TransValue)
    (cache : Cache) (lang : String) (hne : lang ≠ DEFAULT_LANG) :
    cacheGet (loadTranslation network cache DEFAULT_LANG).cache lang =
      cacheGet cache lang := by
  by_cases ht : truthyOpt (cacheGet cache DEFAULT_LANG) = true
  · obtain ⟨v, hcc, htv⟩ := (truthyOpt_eq_true_iff _).mp ht
    rw [loadTranslation_hit network cache DEFAULT_LANG v hcc htv]
  · have ht' : truthyOpt (cacheGet cache DEFAULT_LANG) = false := by
      revert ht
      cases truthyOpt (cacheGet cache DEFAULT_LANG) <;> simp
    cases hn : network DEFAULT_LANG with
    | some data =>
      rw [loadTranslation_fetch_ok network cache DEFAULT_LANG data ht' hn]
      exact cacheGet_set_ne cache DEFAULT_LANG lang data hne
    | none =>
      rw [loadTranslation_fail_default network cache ht' hn]

/-- C3: when the network fetch for a code succeeds (with a truthy decoded
bundle, as every JSON object is), the first `loadTranslation` call leaves
the cache holding the returned bundle under that code, a second call for
the same code returns exactly that bundle with an unchanged cache, no
network access and no warning, and the first call itself fetched at most
once. -/
theorem loadTranslation_second_call_cached (network : String → Option TransValue)
    (cache : Cache) (lang : String) (b : TransValue)
    (hb : network lang = some b) (htr : truthy b = true) :
    cacheGet (loadTranslation network cache lang).cache lang =
        some (loadTranslation network cache lang).bundle
    ∧ loadTranslation network (loadTranslation network cache lang).cache lang =
        ⟨(loadTranslation network cache lang).bundle,
         (loadTranslation network cache lang).cache, [], []⟩
    ∧ (loadTranslation network cache lang).fetched.length ≤ 1 := by
  by_cases ht : truthyOpt (cacheGet cache lang) = true
  · obtain ⟨v, hcc, htv⟩ := (truthyOpt_eq_true_iff _).mp ht
    rw [loadTranslation_hit network cache lang v hcc htv]
    dsimp only
    exact ⟨hcc, loadTranslation_hit network cache lang v hcc htv, by simp⟩
  · have ht' : truthyOpt (cacheGet cache lang) = false := by
      revert ht
      cases truthyOpt (cacheGet cache lang) <;> simp
    rw [loadTranslation_fetch_ok network cache lang b ht' hb]
    dsimp only
    refine ⟨cacheGet_set_self cache lang b, ?_, by simp⟩
    exact loadTranslation_hit network (cacheSet cache lang b) lang b
      (cacheGet_set_self cache lang b) htr

/-- C4: when the fetch for a non-default code fails (and no truthy cache
entry exists), `loadTranslation` warns about that code first, returns the
result of loading the default language instead, performs at most two
network accesses in total (one fallback hop), and when the default load
also fails it returns the empty bundle instead of raising an error. -/
theorem loadTranslation_failure_falls_back (network : String → Option TransValue)
    (cache : Cache) (lang : String)
    (hc : truthyOpt (cacheGet cache lang) = false)
    (hn : network lang = none) (hne : lang ≠ DEFAULT_LANG) :
    (loadTranslation network cache lang).warns.head? = some lang
    ∧ (loadTranslation network cache lang).bundle =
        (loadTranslation network cache DEFAULT_LANG).bundle
    ∧ (loadTranslation network cache lang).fetched =
        lang :: (loadTranslation network cache DEFAULT_LANG).fetched
    ∧ (loadTranslation network cache lang).fetched.length ≤ 2
    ∧ (truthyOpt (cacheGet cache DEFAULT_LANG) = false →
        network DEFAULT_LANG = none →
        (loadTranslation network cache lang).bundle = TransValue.obj []) := by
  rw [loadTranslation_fail_fallback network cache lang hc hn hne]
  dsimp only
  refine ⟨rfl, rfl, rfl, ?_, ?_⟩
  · have hle := loadTranslation_default_fetched_le_one network cache
    simp only [List.length_cons]
    omega
  · intro hcd hnd
    rw [loadTranslation_fail_default network cache hcd hnd]

/-- C9: a failing load writes nothing to the cache under the requested
code: when the code has no cache entry and its fetch fails, the cache
entry for that code is still absent after the call. -/
theorem loadTranslation_failure_no_cache_entry (network : String → Option TransValue)
    (cache : Cache) (lang : String)
    (hc : cacheGet cache lang = none) (hn : network lang = none) :
    cacheGet (loadTranslation network cache lang).cache lang = none := by
  have hc' : truthyOpt (cacheGet cache lang) = false := by
    rw [hc]
    rfl
  by_cases hd : lang = DEFAULT_LANG
  · subst hd
    rw [loadTranslation_fail_default network cache hc' hn]
    exact hc
  · rw [loadTranslation_fail_fallback network cache lang hc' hn hd]
    dsimp only
    rw [loadTranslation_default_cacheGet_ne network cache lang hd]
    exact hc

lemma applyTextElem_idem (t : TransValue) (e : Elem) :
    applyTextElem t (applyTextElem t e) = applyTextElem t e := by
  cases e with
  | mk di da tx al =>
    cases di with
    | none => rfl
    | some k =>
      simp only [applyTextElem]
      cases hv : getNestedValue t k with
      | none => simp [hv]
      | some v => simp [hv]

lemma applyAriaElem_idem (t : TransValue) (e : Elem) :
    applyAriaElem t (applyAriaElem t e) = applyAriaElem t e := by
  cases e with
  | mk di da tx al =>
    cases da with
    | none => rfl
    | some k =>
      simp only [applyAriaElem]
      cases hv : getNestedValue t k with
      | none => simp [hv]
      | some v => simp [hv]

lemma applyText_aria_comm (t : TransValue) (e : Elem) :
    applyTextElem t (applyAriaElem t e) = applyAriaElem t (applyTextElem t e) := by
  cases e with
  | mk di da tx al =>
    cases di with
    | none =>
      cases da with
      | none => rfl
      | some ka =>
        simp only [applyTextElem, applyAriaElem]
        cases hva : getNestedValue t ka <;> simp [hva]
    | some kt =>
      cases da with
      | none =>
        simp only [applyTextElem, applyAriaElem]
        cases hvt : getNestedValue t kt <;> simp [hvt]
      | some ka =>
        simp only [applyTextElem, applyAriaElem]
        cases hvt : getNestedValue t kt <;> cases hva : getNestedValue t ka <;>
          simp [hvt, hva]

lemma applyStep_idem (t : TransValue) (e : Elem) :
    applyAriaElem t (applyTextElem t (applyAriaElem t (applyTextElem t e))) =
      applyAriaElem t (applyTextElem t e) := by
  rw [applyText_aria_comm t (applyTextElem t e), applyTextElem_idem,
    applyAriaElem_idem]

lemma applyTranslations_elems (t : TransValue) (d : Dom) :
    (applyTranslations t d).elems =
      (d.elems.map (applyTextElem t)).map (applyAriaElem t) := by
  simp only [applyTranslations]
  repeat' split
  all_goals rfl

lemma applyTranslations_buttons (t : TransValue) (d : Dom) :
    (applyTranslations t d).buttons = d.buttons := by
  simp only [applyTranslations]
  repeat' split
  all_goals rfl

lemma applyTranslations_htmlLang (t : TransValue) (d : Dom) :
    (applyTranslations t d).htmlLang = d.htmlLang := by
  simp only [applyTranslations]
  repeat' split
  all_goals rfl

lemma applyTranslations_title (t : TransValue) (d : Dom) :
    (applyTranslations t d).title =
      match getNestedValue t "meta.title" with
      | some v => if truthy v then jsToString v else d.title
      | none => d.title := by
  simp only [applyTranslations]
  repeat' split
  all_goals rfl

lemma applyTranslations_metaDesc (t : TransValue) (d : Dom) :
    (applyTranslations t d).metaDesc =
      match getNestedValue t "meta.description" with
      | some v =>
        if truthy v then d.metaDesc.map (fun _ => jsToString v) else d.metaDesc
      | none => d.metaDesc := by
  simp only [applyTranslations]
  repeat' split
  all_goals rfl

lemma Dom.ext_fields {a b : Dom} (h1 : a.elems = b.elems) (h2 : a.title = b.title)
    (h3 : a.metaDesc = b.metaDesc) (h4 : a.buttons = b.buttons)
    (h5 : a.htmlLang = b.htmlLang) : a = b := by
  cases a
  cases b
  simp_all

/-- C5: `applyTranslations` is idempotent: applying the same bundle twice
yields exactly the DOM state (element texts, aria-label attributes, title
and meta description) that applying it once yields. -/
theorem applyTranslations_idempotent (t : TransValue) (d : Dom) :
    applyTranslations t (applyTranslations t d) = applyTranslations t d := by
  apply Dom.ext_fields
  · rw [applyTranslations_elems, applyTranslations_elems]
    simp only [List.map_map]
    apply List.map_congr_left
    intro a _
    simp only [Function.comp_apply]
    exact applyStep_idem t a
  · rw [applyTranslations_title, applyTranslations_title]
    cases hmt : getNestedValue t "meta.title" with
    | none => rfl
    | some v =>
      by_cases htv : truthy v = true
      · simp [htv]
      · simp [htv]
  · rw [applyTranslations_metaDesc, applyTranslations_metaDesc]
    cases hmd : getNestedValue t "meta.description" with
    | none => rfl
    | some v =>
      by_cases htv : truthy v = true
      · simp only [htv, if_true]
        cases d.metaDesc <;> rfl
      · simp [htv]
  · rw [applyTranslations_buttons]
  · rw [applyTranslations_htmlLang]

lemma applyTextElem_miss (t : TransValue) (e : Elem)
    (h : ∀ k, e.dataI18n = some k → getNestedValue t k = none) :
    applyTextElem t e = e := by
  unfold applyTextElem
  cases hdi : e.dataI18n with
  | none => rfl
  | some k => simp [h k hdi]

lemma applyAriaElem_miss (t : TransValue) (e : Elem)
    (h : ∀ k, e.dataAria = some k → getNestedValue t k = none) :
    applyAriaElem t e = e := by
  unfold applyAriaElem
  cases hda : e.dataAria with
  | none => rfl
  | some k => simp [h k hda]

/-- C6: an element whose translation key path (text or aria, whichever
markers it carries) does not resolve to a value in the bundle is left
completely unchanged by `applyTranslations` — same text content and same
attributes, with no error. -/
theorem applyTranslations_missing_key_untouched (t : TransValue) (d : Dom)
    (i : Nat) (e : Elem) (he : d.elems[i]? = some e)
    (h1 : ∀ k, e.dataI18n = some k → getNestedValue t k = none)
    (h2 : ∀ k, e.dataAria = some k → getNestedValue t k = none) :
    (applyTranslations t d).elems[i]? = some e := by
  rw [applyTranslations_elems, List.getElem?_map, List.getElem?_map, he]
  simp only [Option.map_some']
  rw [applyTextElem_miss t e h1, applyAriaElem_miss t e h2]

lemma updatePicker_htmlLang (activeLang : String) (d : Dom) :
    (updatePicker activeLang d).htmlLang = activeLang := by
  unfold updatePicker
  by_cases h : activeLang = "pt-BR"
  · simp [h]
  · simp [h]

lemma switchLanguage_supported_eq (network : String → Option TransValue)
    (lang : String) (s : State) (h : SUPPORTED_LANGS.contains lang = true) :
    switchLanguage network lang s =
      ⟨⟨some lang, (loadTranslation network s.cache lang).cache,
        updatePicker lang
          (applyTranslations (loadTranslation network s.cache lang).bundle s.dom)⟩,
       (loadTranslation network s.cache lang).fetched,
       (loadTranslation network s.cache lang).warns⟩ := by
  unfold switchLanguage
  rw [if_pos h]

/-- C7: for a code outside the supported set, `switchLanguage` is a
complete no-op: the stored preference, the translation cache, and the DOM
(picker buttons and lang attribute included) are returned unchanged, with
no network access and no warning. -/
theorem switchLanguage_unsupported_noop (network : String → Option TransValue)
    (lang : String) (s : State) (h : SUPPORTED_LANGS.contains lang = false) :
    switchLanguage network lang s = ⟨s, [], []⟩ := by
  unfold switchLanguage
  rw [if_neg (fun hmem : SUPPORTED_LANGS.contains lang = true => by
    rw [h] at hmem
    exact Bool.false_ne_true hmem)]

/-- C8: for a supported code, `switchLanguage` persists the code as the
stored preference, stores the load's cache, applies the loaded bundle to
the marked elements and then synchronises the picker, sets the lang
attribute of `documentElement` to the code, and marks exactly the matching
picker controls active. -/
theorem switchLanguage_supported_applies (network : String → Option TransValue)
    (lang : String) (s : State) (h : SUPPORTED_LANGS.contains lang = true) :
    (switchLanguage network lang s).state.storage = some lang
    ∧ (switchLanguage network lang s).state.cache =
        (loadTranslation network s.cache lang).cache
    ∧ (switchLanguage network lang s).state.dom =
        updatePicker lang
          (applyTranslations (loadTranslation network s.cache lang).bundle s.dom)
    ∧ (switchLanguage network lang s).state.dom.htmlLang = lang
    ∧ (∀ b ∈ (switchLanguage network lang s).state.dom.buttons,
        b.active = true ↔ b.dataLang = some lang)
    ∧ (switchLanguage network lang s).fetched =
        (loadTranslation network s.cache lang).fetched := by
  rw [switchLanguage_supported_eq network lang s h]
  dsimp only
  refine ⟨rfl, rfl, rfl, updatePicker_htmlLang lang _, ?_, rfl⟩
  intro b hb
  simp only [updatePicker] at hb
  rcases List.mem_map.mp hb with ⟨b0, _, rfl⟩
  simp [updateBtn]

/-- C10: `switchLanguage` persists the preference even when the fetch for
the requested (supported, non-default) code fails: afterwards the stored
preference and the documentElement lang attribute name the requested code,
while the DOM content was produced by applying the default-language (or
empty) fallback bundle, and the requested code was warned about. -/
theorem switchLanguage_failure_divergence (network : String → Option TransValue)
    (lang : String) (s : State)
    (hsup : SUPPORTED_LANGS.contains lang = true)
    (hne : lang ≠ DEFAULT_LANG)
    (hc : truthyOpt (cacheGet s.cache lang) = false)
    (hn : network lang = none) :
    (switchLanguage network lang s).state.storage = some lang
    ∧ (switchLanguage network lang s).state.dom.htmlLang = lang
    ∧ (switchLanguage network lang s).state.dom =
        updatePicker lang
          (applyTranslations
            (loadTranslation network s.cache DEFAULT_LANG).bundle s.dom)
    ∧ (switchLanguage network lang s).warns.head? = some lang := by
  rw [switchLanguage_supported_eq network lang s hsup]
  dsimp only
  rw [loadTranslation_fail_fallback network s.cache lang hc hn hne]
  dsimp only
  exact ⟨rfl, updatePicker_htmlLang lang _, rfl, rfl⟩

/-- Witness for C3 at a concrete input: a network that answers every code
with the empty-object bundle, an empty cache and the code "de". -/
theorem loadTranslation_second_call_cached_witness :
    (fun _ : String => some (TransValue.obj [])) "de" = some (TransValue.obj [])
    ∧ truthy (TransValue.obj []) = true
    ∧ (cacheGet (loadTranslation (fun _ : String => some (TransValue.obj []))
          [] "de").cache "de" =
        some (loadTranslation (fun _ : String => some (TransValue.obj []))
          [] "de").bundle
      ∧ loadTranslation (fun _ : String => some (TransValue.obj []))
          (loadTranslation (fun _ : String => some (TransValue.obj []))
            [] "de").cache "de" =
          ⟨(loadTranslation (fun _ : String => some (TransValue.obj []))
              [] "de").bundle,
           (loadTranslation (fun _ : String => some (TransValue.obj []))
              [] "de").cache, [], []⟩
      ∧ (loadTranslation (fun _ : String => some (TransValue.obj []))
          [] "de").fetched.length ≤ 1) :=
  ⟨rfl, rfl,
    loadTranslation_second_call_cached (fun _ : String => some (TransValue.obj []))
      [] "de" (TransValue.obj []) rfl rfl⟩

/-- Witness for C4 at a concrete input: a network that always fails, an
empty cache and the non-default code "de". -/
theorem loadTranslation_failure_falls_back_witness :
    truthyOpt (cacheGet ([] : Cache) "de") = false
    ∧ (fun _ : String => (none : Option TransValue)) "de" = none
    ∧ "de" ≠ DEFAULT_LANG
    ∧ ((loadTranslation (fun _ : String => (none : Option TransValue))
          [] "de").warns.head? = some "de"
      ∧ (loadTranslation (fun _ : String => (none : Option TransValue))
            [] "de").bundle =
          (loadTranslation (fun _ : String => (none : Option TransValue))
            [] DEFAULT_LANG).bundle
      ∧ (loadTranslation (fun _ : String => (none : Option TransValue))
            [] "de").fetched =
          "de" :: (loadTranslation (fun _ : String => (none : Option TransValue))
            [] DEFAULT_LANG).fetched
      ∧ (loadTranslation (fun _ : String => (none : Option TransValue))
          [] "de").fetched.length ≤ 2
      ∧ (truthyOpt (cacheGet ([] : Cache) DEFAULT_LANG) = false →
          (fun _ : String => (none : Option TransValue)) DEFAULT_LANG = none →
          (loadTranslation (fun _ : String => (none : Option TransValue))
            [] "de").bundle = TransValue.obj [])) :=
  ⟨rfl, rfl, by decide,
    loadTranslation_failure_falls_back (fun _ : String => (none : Option TransValue))
      [] "de" rfl rfl (by decide)⟩

/-- Witness for C6 at a concrete input: a bundle holding only the key "a"
and an element whose marker key "b" does not resolve. -/
theorem applyTranslations_missing_key_untouched_witness :
    (Dom.mk [Elem.mk (some "b") none "hello" none] "T" none [] "en").elems[0]? =
        some (Elem.mk (some "b") none "hello" none)
    ∧ (∀ k, (Elem.mk (some "b") none "hello" none).dataI18n = some k →
        getNestedValue (TransValue.obj [("a", TransValue.str "x")]) k = none)
    ∧ (∀ k, (Elem.mk (some "b") none "hello" none).dataAria = some k →
        getNestedValue (TransValue.obj [("a", TransValue.str "x")]) k = none)
    ∧ (applyTranslations (TransValue.obj [("a", TransValue.str "x")])
        (Dom.mk [Elem.mk (some "b") none "hello" none] "T" none [] "en")).elems[0]? =
        some (Elem.mk (some "b") none "hello" none) :=
  ⟨rfl,
    fun k hk => by
      have hk' : some "b" = some k := hk
      injection hk' with hk2
      subst hk2
      rfl,
    fun k hk => by
      have hk' : (none : Option String) = some k := hk
      exact Option.noConfusion hk',
    applyTranslations_missing_key_untouched
      (TransValue.obj [("a", TransValue.str "x")])
      (Dom.mk [Elem.mk (some "b") none "hello" none] "T" none [] "en")
      0 (Elem.mk (some "b") none "hello" none) rfl
      (fun k hk => by
        have hk' : some "b" = some k := hk
        injection hk' with hk2
        subst hk2
        rfl)
      (fun k hk => by
        have hk' : (none : Option String) = some k := hk
        exact Option.noConfusion hk')⟩

/-- Witness for C7 at a concrete input: the unsupported code "xx" against
a concrete state. -/
theorem switchLanguage_unsupported_noop_witness :
    SUPPORTED_LANGS.contains "xx" = false
    ∧ switchLanguage (fun _ : String => (none : Option TransValue)) "xx"
        ⟨some "en", [], ⟨[], "T", none, [], "en"⟩⟩ =
      ⟨⟨some "en", [], ⟨[], "T", none, [], "en"⟩⟩, [], []⟩ :=
  ⟨by decide,
    switchLanguage_unsupported_noop (fun _ : String => (none : Option TransValue))
      "xx" ⟨some "en", [], ⟨[], "T", none, [], "en"⟩⟩ (by decide)⟩

/-- Witness for C8 at the spec's end-to-end instance: switching to "pt-BR"
with the bundle holding hero.subtitle = "Olá" sets the marked element's
text to "Olá" and the documentElement lang attribute to "pt-BR". -/
theorem switchLanguage_supported_applies_witness :
    SUPPORTED_LANGS.contains "pt-BR" = true
    ∧ (switchLanguage
        (fun l : String => if l = "pt-BR" then
          some (TransValue.obj
            [("hero", TransValue.obj [("subtitle", TransValue.str "Olá")])])
          else none)
        "pt-BR"
        ⟨some "pt-BR", [],
          ⟨[Elem.mk (some "hero.subtitle") none "old" none], "T", none,
            [PickerBtn.mk (some "pt-BR") false "false",
             PickerBtn.mk (some "en") true "true"], "en"⟩⟩).state.storage =
        some "pt-BR"
    ∧ (switchLanguage
        (fun l : String => if l = "pt-BR" then
          some (TransValue.obj
            [("hero", TransValue.obj [("subtitle", TransValue.str "Olá")])])
          else none)
        "pt-BR"
        ⟨some "pt-BR", [],
          ⟨[Elem.mk (some "hero.subtitle") none "old" none], "T", none,
            [PickerBtn.mk (some "pt-BR") false "false",
             PickerBtn.mk (some "en") true "true"], "en"⟩⟩).state.dom.htmlLang =
        "pt-BR"
    ∧ ((switchLanguage
        (fun l : String => if l = "pt-BR" then
          some (TransValue.obj
            [("hero", TransValue.obj [("subtitle", TransValue.str "Olá")])])
          else none)
        "pt-BR"
        ⟨some "pt-BR", [],
          ⟨[Elem.mk (some "hero.subtitle") none "old" none], "T", none,
            [PickerBtn.mk (some "pt-BR") false "false",
             PickerBtn.mk (some "en") true "true"], "en"⟩⟩).state.dom.elems.map
          Elem.text) = ["Olá"]
    ∧ ((switchLanguage
        (fun l : String => if l = "pt-BR" then
          some (TransValue.obj
            [("hero", TransValue.obj [("subtitle", TransValue.str "Olá")])])
          else none)
        "pt-BR"
        ⟨some "pt-BR", [],
          ⟨[Elem.mk (some "hero.subtitle") none "old" none], "T", none,
            [PickerBtn.mk (some "pt-BR") false "false",
             PickerBtn.mk (some "en") true "true"], "en"⟩⟩).state.dom.buttons.map
          PickerBtn.active) = [true, false] := by
  have h := switchLanguage_supported_applies
    (fun l : String => if l = "pt-BR" then
      some (TransValue.obj
        [("hero", TransValue.obj [("subtitle", TransValue.str "Olá")])])
      else none)
    "pt-BR"
    ⟨some "pt-BR", [],
      ⟨[Elem.mk (some "hero.subtitle") none "old" none], "T", none,
        [PickerBtn.mk (some "pt-BR") false "false",
         PickerBtn.mk (some "en") true "true"], "en"⟩⟩
    (by decide)
  refine ⟨by decide, h.1, h.2.2.2.1, ?_, ?_⟩
  all_goals
    rw [h.2.2.1,
      loadTranslation_fetch_ok
        (fun l : String => if l = "pt-BR" then
          some (TransValue.obj
            [("hero", TransValue.obj [("subtitle", TransValue.str "Olá")])])
          else none)
        (State.mk (some "pt-BR") []
          (Dom.mk [Elem.mk (some "hero.subtitle") none "old" none] "T" none
            [PickerBtn.mk (some "pt-BR") false "false",
             PickerBtn.mk (some "en") true "true"] "en")).cache
        "pt-BR"
        (TransValue.obj
          [("hero", TransValue.obj [("subtitle", TransValue.str "Olá")])])
        rfl rfl]
    decide

/-- Witness for C9 at a concrete input: a network that always fails, an
empty cache and the code "de". -/
theorem loadTranslation_failure_no_cache_entry_witness :
    cacheGet ([] : Cache) "de" = none
    ∧ (fun _ : String => (none : Option TransValue)) "de" = none
    ∧ cacheGet (loadTranslation (fun _ : String => (none : Option TransValue))
        [] "de").cache "de" = none :=
  ⟨rfl, rfl,
    loadTranslation_failure_no_cache_entry
      (fun _ : String => (none : Option TransValue)) [] "de" rfl rfl⟩

/-- Witness for C10 at a concrete input: switching to the supported code
"de" while every fetch fails; the preference and lang attribute name "de"
while the content comes from the empty fallback bundle. -/
theorem switchLanguage_failure_divergence_witness :
    SUPPORTED_LANGS.contains "de" = true
    ∧ "de" ≠ DEFAULT_LANG
    ∧ truthyOpt (cacheGet ([] : Cache) "de") = false
    ∧ (fun _ : String => (none : Option TransValue)) "de" = none
    ∧ ((switchLanguage (fun _ : String => (none : Option TransValue)) "de"
          ⟨none, [],
            ⟨[Elem.mk (some "hero.subtitle") none "hello" none], "T", none, [],
              "en"⟩⟩).state.storage = some "de"
      ∧ (switchLanguage (fun _ : String => (none : Option TransValue)) "de"
          ⟨none, [],
            ⟨[Elem.mk (some "hero.subtitle") none "hello" none], "T", none, [],
              "en"⟩⟩).state.dom.htmlLang = "de"
      ∧ (switchLanguage (fun _ : String => (none : Option TransValue)) "de"
          ⟨none, [],
            ⟨[Elem.mk (some "hero.subtitle") none "hello" none], "T", none, [],
              "en"⟩⟩).state.dom =
          updatePicker "de"
            (applyTranslations
              (loadTranslation (fun _ : String => (none : Option TransValue))
                ([] : Cache) DEFAULT_LANG).bundle
              ⟨[Elem.mk (some "hero.subtitle") none "hello" none], "T", none, [],
                "en"⟩)
      ∧ (switchLanguage (fun _ : String => (none : Option TransValue)) "de"
          ⟨none, [],
            ⟨[Elem.mk (some "hero.subtitle") none "hello" none], "T", none, [],
              "en"⟩⟩).warns.head? = some "de") :=
  ⟨by decide, by decide, rfl, rfl,
    switchLanguage_failure_divergence
      (fun _ : String => (none : Option TransValue)) "de"
      ⟨none, [],
        ⟨[Elem.mk (some "hero.subtitle") none "hello" none], "T", none, [],
          "en"⟩⟩
      (by decide) (by decide) rfl rfl⟩

/-- Witness for C1 at a concrete input: an unsupported stored value and a
locale list with a prefix match. -/
theorem resolveLanguage_always_supported_witness :
    resolveLanguage (some "xx") ["fr-FR", "de-AT"] ∈ SUPPORTED_LANGS :=
  resolveLanguage_always_supported (some "xx") ["fr-FR", "de-AT"]

/-- Witness for C2 at a concrete input: the two resolvers agree on a
stored preference outside the supported set with a prefix-matching locale
list. -/
theorem resolveLanguage_precedence_witness :
    resolveLanguage (some "xx") ["pt-PT", "de"] =
      resolveLanguageSpec (some "xx") ["pt-PT", "de"] :=
  resolveLanguage_precedence.1 (some "xx") ["pt-PT", "de"]

/-- Witness for C5 at a concrete input: a bundle with a hit, a miss and
meta keys against a concrete DOM. -/
theorem applyTranslations_idempotent_witness :
    applyTranslations
        (TransValue.obj
          [("hero", TransValue.obj [("subtitle", TransValue.str "Olá")]),
           ("meta", TransValue.obj [("title", TransValue.str "Home")])])
        (applyTranslations
          (TransValue.obj
            [("hero", TransValue.obj [("subtitle", TransValue.str "Olá")]),
             ("meta", TransValue.obj [("title", TransValue.str "Home")])])
          (Dom.mk
            [Elem.mk (some "hero.subtitle") none "old" none,
             Elem.mk (some "missing.key") (some "hero.subtitle") "keep" none]
            "T" (some "desc") [PickerBtn.mk (some "en") true "true"] "en")) =
      applyTranslations
        (TransValue.obj
          [("hero", TransValue.obj [("subtitle", TransValue.str "Olá")]),
           ("meta", TransValue.obj [("title", TransValue.str "Home")])])
        (Dom.mk
          [Elem.mk (some "hero.subtitle") none "old" none,
           Elem.mk (some "missing.key") (some "hero.subtitle") "keep" none]
          "T" (some "desc") [PickerBtn.mk (some "en") true "true"] "en") :=
  applyTranslations_idempotent
    (TransValue.obj
      [("hero", TransValue.obj [("subtitle", TransValue.str "Olá")]),
       ("meta", TransValue.obj [("title", TransValue.str "Home")])])
    (Dom.mk
      [Elem.mk (some "hero.subtitle") none "old" none,
       Elem.mk (some "missing.key") (some "hero.subtitle") "keep" none]
      "T" (some "desc") [PickerBtn.mk (some "en") true "true"] "en")
